import Mathlib

/-!
Verification of the device-identity and loopback-test-harness core of
devicemapper-rs (src/device.rs and src/loopbacked.rs).

Machine integers are embedded as `Nat`. Every theorem that needs a width
bound carries it as an explicit hypothesis (`v < 2 ^ 64` for `u64`,
`v < 2 ^ 32` for `u32`); none of the shifts in the embedded code can
overflow their Rust integer type on the stated domains, so no wrap-around
reduction is required (this is noted at each definition).
-/

namespace Devicemapper

/-! ## Device identity (src/device.rs)

`Device` holds a `u32` major and a `u32` minor number.  Conversion to and
from the composite `dev_t` uses the glibc default packing, embedded here
exactly as the `libc` crate computes it (functions `major`, `minor`,
`makedev`); conversion to and from the legacy `kdev_t` is embedded from
`Device::from_kdev_t` / `Device::to_kdev_t`. -/

/-- `pub struct Device { pub major: u32, pub minor: u32 }`. -/
structure Device where
  major : Nat
  minor : Nat
  deriving Repr, DecidableEq

namespace Libc

/-- glibc `gnu_dev_major`:
`((dev & 0x00000000000fff00) >> 8) | ((dev & 0xfffff00000000000) >> 32)`.
The result always fits in a `c_uint`, so the closing 32-bit cast in the
`libc` crate never truncates. -/
def major (dev : Nat) : Nat :=
  ((dev &&& 0x00000000000fff00) >>> 8) ||| ((dev &&& 0xfffff00000000000) >>> 32)

/-- glibc `gnu_dev_minor`:
`(dev & 0x00000000000000ff) | ((dev & 0x00000ffffff00000) >> 12)`. -/
def minor (dev : Nat) : Nat :=
  (dev &&& 0x00000000000000ff) ||| ((dev &&& 0x00000ffffff00000) >>> 12)

/-- glibc `gnu_dev_makedev`: the major and minor are widened to 64 bits and
packed as
`((major & 0xfff) << 8) | ((major & 0xfffff000) << 32) | (minor & 0xff) | ((minor & 0xffffff00) << 12)`.
No summand exceeds `2 ^ 64`, so `u64` arithmetic never wraps here. -/
def makedev (ma mi : Nat) : Nat :=
  ((ma &&& 0xfff) <<< 8) ||| ((ma &&& 0xfffff000) <<< 32) |||
    (mi &&& 0xff) ||| ((mi &&& 0xffffff00) <<< 12)

end Libc

namespace Device

/-- `impl From<dev_t> for Device`. -/
def from_dev_t (val : Nat) : Device :=
  { major := Libc.major val, minor := Libc.minor val }

/-- `impl From<Device> for dev_t`. -/
def to_dev_t (dev : Device) : Nat :=
  Libc.makedev dev.major dev.minor

/-- `Device::from_kdev_t`: decodes the kernel kdev_t layout mmmM MMmm. -/
def from_kdev_t (val : Nat) : Device :=
  { major := (val &&& 0xfff00) >>> 8
    minor := (val &&& 0xff) ||| ((val >>> 12) &&& 0xfff00) }

/-- `Device::to_kdev_t`: returns `none` when the device is not expressible
as a kdev_t.  In Rust `!0xff : u32 = 0xffffff00`.  After the guard,
`major <<< 8` and `(minor &&& 0xffffff00) <<< 12` stay far below `2 ^ 32`,
so the `u32` arithmetic never wraps. -/
def to_kdev_t (dev : Device) : Option Nat :=
  if 0xfff < dev.major ∨ 0xfffff < dev.minor then
    none
  else
    some ((dev.minor &&& 0xff) ||| (dev.major <<< 8) |||
      ((dev.minor &&& 0xffffff00) <<< 12))

end Device

/-! ## Loopback test harness (src/loopbacked.rs) -/

/-- The POSIX file metadata consulted by `devnode_to_devno`: the raw mode
word (`st_mode`) and the raw device number (`st_rdev`). -/
structure Metadata where
  st_mode : Nat
  st_rdev : Nat
  deriving Repr, DecidableEq

/-- POSIX file-type mask `S_IFMT` (value taken from the nix crate). -/
def S_IFMT : Nat := 0o170000

/-- POSIX block-device file type `S_IFBLK` (value taken from the nix crate). -/
def S_IFBLK : Nat := 0o60000

/-- `devnode_to_devno`.  The filesystem is modelled as a map from paths to
metadata, `none` meaning the metadata of the node cannot be read (then the
`unwrap` in the source panics, modelled as `Except.error`).  Otherwise the
raw device number is returned exactly when the file-type bits equal
`S_IFBLK`, and `none` (an absent value inside `Except.ok`) otherwise. -/
def devnode_to_devno (fs : String → Option Metadata) (path : String) :
    Except Unit (Option Nat) :=
  match fs path with
  | none => Except.error ()
  | some metadata =>
      Except.ok
        (if metadata.st_mode &&& S_IFMT = S_IFBLK then some metadata.st_rdev
         else none)

/-! ### `write_sectors` / `wipe_sectors` (claim C6)

`SECTOR_SIZE` lives in the `consts` module and the `Sectors` / `Bytes`
newtypes in the `types` module, neither of which is among the sources.
Modelled from the spec: the buffer is "sector-sized", so the sector size is
kept as an explicit parameter `sector_size`; `Sectors` wraps a count of
sectors and dereferencing it yields that raw count.  (The count reading is
forced by the crate itself: `LoopTestDev::new` wipes with
`length = Bytes(IEC::Mi).sectors()` under the comment "Wipe one MiB", which
only writes one MiB if `*length` is the number of sectors, not a number of
bytes.)  Consequently `f.seek(SeekFrom::Start(*offset))` positions the
stream at byte `offset` -- the raw sector count -- and not at
`offset * sector_size`. -/

/-- Fault plan for a single `write_sectors` call. -/
structure WsPlan where
  openOk : Bool
  seekOk : Bool
  writeOk : Nat → Bool
  flushOk : Bool

/-- The plan on which every operation succeeds. -/
def wsAllOk : WsPlan := ⟨true, true, fun _ => true, true⟩

/-- `File::write_all` on an open file: overwrite `len` bytes of content `c`
at byte position `pos` with the buffer `buf`. -/
def writeAll (c : Nat → Nat) (pos : Nat) (buf : Nat → Nat) (len : Nat) :
    Nat → Nat :=
  fun i => if pos ≤ i ∧ i < pos + len then buf (i - pos) else c i

/-- The loop `for _ in 0..*length { f.write_all(buf)?; }` followed by
`f.flush()?`: writes `remaining` more sector buffers starting at byte
position `pos`, the write at index `k` being the next one.  Returns the
content reached together with the success flag; on a failed write or flush
the bytes already written are kept (no rollback). -/
def write_loop (plan : WsPlan) (sector_size : Nat) (buf : Nat → Nat) :
    Nat → Nat → (Nat → Nat) → Nat → ((Nat → Nat) × Bool)
  | 0, _, c, _ => (c, plan.flushOk)
  | remaining + 1, k, c, pos =>
      if plan.writeOk k then
        write_loop plan sector_size buf remaining (k + 1)
          (writeAll c pos buf sector_size) (pos + sector_size)
      else (c, false)

/-- `write_sectors(path, offset, length, buf)` over the content of the file
at `path`.  `offset` and `length` are the `u64` payloads of `Sectors`
values (counts of sectors).  The initial stream position is the raw count
`offset`, exactly as `f.seek(SeekFrom::Start(*offset))` computes it. -/
def write_sectors (plan : WsPlan) (sector_size : Nat) (offset length : Nat)
    (buf : Nat → Nat) (c0 : Nat → Nat) : (Nat → Nat) × Bool :=
  if plan.openOk then
    if plan.seekOk then write_loop plan sector_size buf length 0 c0 offset
    else (c0, false)
  else (c0, false)

/-- `wipe_sectors`: `write_sectors` with the all-zero sector buffer. -/
def wipe_sectors (plan : WsPlan) (sector_size : Nat) (offset length : Nat)
    (c0 : Nat → Nat) : (Nat → Nat) × Bool :=
  write_sectors plan sector_size offset length (fun _ => 0) c0

/-- Modelled from the spec: the wipe as the spec describes it, identical to
`write_sectors` except that it "seeks to offset * sector_size". -/
def write_sectors_spec (plan : WsPlan) (sector_size : Nat)
    (offset length : Nat) (buf : Nat → Nat) (c0 : Nat → Nat) :
    (Nat → Nat) × Bool :=
  if plan.openOk then
    if plan.seekOk then
      write_loop plan sector_size buf length 0 c0 (offset * sector_size)
    else (c0, false)
  else (c0, false)

/-! ### The provisioning and teardown state machine (claims C7 to C10)

`get_devices` / `LoopTestDev` / `test_with_spec` are embedded as a trace
semantics: each run produces the list of OS-boundary events it performs, a
fault plan choosing which fallible call (each ended by `.unwrap()` or `?` in
the source) succeeds.  A failed `unwrap` panics; Rust unwinding then runs
the destructors of the live guard values, which is written out explicitly at
every exit path.  The loopdev crate value `LoopDevice` carries no
destructor side effect: the kernel keeps a loop binding until an explicit
`LOOP_CLR_FD`, and detach-on-drop is precisely what the wrapper
`LoopTestDev` adds (its only purpose) -- so a panic between `attach` and the
construction of the `LoopTestDev` guard releases nothing. -/

/-- Modelled from the spec: `IEC::Mi` from the missing `consts` module; the
spec fixes the wiped region at 1 MiB. -/
def IEC.Mi : Nat := 2 ^ 20

/-- Modelled from the spec: `IEC::Gi` from the missing `consts` module; the
spec fixes the nominal backing-file size at 1 GiB. -/
def IEC.Gi : Nat := 2 ^ 30

/-- Paths appearing in the harness, kept structured: `store dir i` is
`dir.path().join(format!("store{}", index))`, and `loopDev id` the device
node of loop device `id` as returned by `ld.get_path()`.  (Distinctness of
the rendered strings follows from distinctness of the indices.) -/
inductive NodePath where
  | store (dir : String) (index : Nat)
  | loopDev (id : Nat)
  deriving Repr, DecidableEq

/-- OS-boundary events performed by the harness. -/
inductive Event where
  | createTmpdir
  | createFile (path : NodePath)
  | seekFile (path : NodePath) (pos : Nat)
  | writeFile (path : NodePath) (nbytes : Nat)
  | flushFile (path : NodePath)
  | openFile (path : NodePath)
  | loopNextFree (id : Nat)
  | loopAttach (id : Nat) (backing : NodePath) (offset : Nat)
  | loopWipe (id : Nat) (offsetSectors lengthBytes : Nat)
  | loopDetach (id : Nat)
  | runBody (paths : List NodePath)
  | removeTmpdir
  deriving Repr, DecidableEq

/-- Which fallible calls succeed.  Per-device call sites are indexed by the
device index at which they run. -/
structure FaultPlan where
  tmpdirOk : Bool
  lcOpenOk : Bool
  createOk : Nat → Bool
  seekOk : Nat → Bool
  writeOk : Nat → Bool
  flushOk : Nat → Bool
  openOk : Nat → Bool
  nextFreeOk : Nat → Bool
  attachOk : Nat → Bool
  wipeOk : Nat → Bool
  bodyOk : Bool

/-- The plan on which every operation succeeds. -/
def allOk : FaultPlan :=
  ⟨true, true, fun _ => true, fun _ => true, fun _ => true, fun _ => true,
    fun _ => true, fun _ => true, fun _ => true, fun _ => true, true⟩

/-- Dropping a `Vec<LoopTestDev>`: the elements are dropped front to back
and each `Drop` runs `detach`, issuing one `LOOP_CLR_FD` per device. -/
def dropDevs (devs : List Nat) : List Event := devs.map Event.loopDetach

/-- `LoopTestDev::new(lc, path)` at device index `i`: open the backing file
read-write (the handle is dropped at once; only the unwrap matters), claim
the next free loop device (id `i`, since ids `0..i` are already bound),
attach it to `path` at offset 0, wipe the first MiB of the device node.
Every step ends in `.unwrap()`; on a failure the events so far are returned
with `none` (the panic), and nothing is released -- in particular a wipe
failure leaks the fresh attachment. -/
def LoopTestDev.new (p : FaultPlan) (i : Nat) (path : NodePath) :
    List Event × Option Nat :=
  if p.openOk i then
    if p.nextFreeOk i then
      if p.attachOk i then
        if p.wipeOk i then
          ([Event.openFile path, Event.loopNextFree i,
            Event.loopAttach i path 0, Event.loopWipe i 0 IEC.Mi], some i)
        else
          ([Event.openFile path, Event.loopNextFree i,
            Event.loopAttach i path 0], none)
      else ([Event.openFile path, Event.loopNextFree i], none)
    else ([Event.openFile path], none)
  else ([], none)

/-- The `for index in 0..count` loop of `get_devices`, with `n` indices left
to process, `i` the next index, and `devs` the loop-device ids in the
`loop_devices` vector so far.  Each index creates `store<i>`, seeks to
`IEC::Gi`, writes one byte, flushes, then runs `LoopTestDev::new`.  On a
panic the vector of guards built so far is dropped (detaching each id in
order) before the panic propagates. -/
def get_devices_loop (p : FaultPlan) (dir : String) :
    Nat → Nat → List Nat → List Event × Option (List Nat)
  | 0, _, devs => ([], some devs)
  | n + 1, i, devs =>
      let path := NodePath.store dir i
      if p.createOk i then
        if p.seekOk i then
          if p.writeOk i then
            if p.flushOk i then
              match LoopTestDev.new p i path with
              | (tn, some id) =>
                  let rest := get_devices_loop p dir n (i + 1) (devs ++ [id])
                  ([Event.createFile path, Event.seekFile path IEC.Gi,
                    Event.writeFile path 1, Event.flushFile path]
                      ++ tn ++ rest.1, rest.2)
              | (tn, none) =>
                  ([Event.createFile path, Event.seekFile path IEC.Gi,
                    Event.writeFile path 1, Event.flushFile path]
                      ++ tn ++ dropDevs devs, none)
            else
              ([Event.createFile path, Event.seekFile path IEC.Gi,
                Event.writeFile path 1] ++ dropDevs devs, none)
          else
            ([Event.createFile path, Event.seekFile path IEC.Gi]
              ++ dropDevs devs, none)
        else ([Event.createFile path] ++ dropDevs devs, none)
      else (dropDevs devs, none)

/-- `get_devices(count, dir)`: `LoopControl::open().unwrap()` and then the
loop.  The count is a `u8`, embedded as `Fin 256`. -/
def get_devices (p : FaultPlan) (dir : String) (count : Fin 256) :
    List Event × Option (List Nat) :=
  if p.lcOpenOk then get_devices_loop p dir count.val 0 []
  else ([], none)

/-- `ld.get_path().unwrap()` of a bound loop device. -/
def loopPath (id : Nat) : NodePath := NodePath.loopDev id

/-- `test_with_spec(count, test)`: create a temporary directory, provision,
hand the device-node paths to the body and drop everything.  The trace of a
whole run, including the destructor effects of every exit path: if
provisioning panics, the vector and the tempdir guard unwind; after
provisioning the body runs, and whether it returns normally or panics the
very same destructors run in the same order, so both `bodyOk` branches emit
the same events. -/
def test_with_spec (p : FaultPlan) (dir : String) (count : Fin 256) :
    List Event :=
  if p.tmpdirOk then
    match get_devices p dir count with
    | (t, none) => Event.createTmpdir :: (t ++ [Event.removeTmpdir])
    | (t, some devs) =>
        if p.bodyOk then
          Event.createTmpdir :: (t ++ [Event.runBody (devs.map loopPath)]
            ++ dropDevs devs ++ [Event.removeTmpdir])
        else
          Event.createTmpdir :: (t ++ [Event.runBody (devs.map loopPath)]
            ++ dropDevs devs ++ [Event.removeTmpdir])
  else []

/-! ### Derived views of a trace -/

/-- The loop bindings attached after an event: `loopAttach` binds a fresh
id at the end, `loopDetach` releases one. -/
def applyEvent (s : List Nat) : Event → List Nat
  | Event.loopAttach id _ _ => s ++ [id]
  | Event.loopDetach id => s.erase id
  | _ => s

/-- The loop bindings attached after a trace, starting from `s`. -/
def attachedAfter (s : List Nat) (t : List Event) : List Nat :=
  t.foldl applyEvent s

/-- Whether the temporary directory exists after a trace. -/
def tmpdirStep (b : Bool) : Event → Bool
  | Event.createTmpdir => true
  | Event.removeTmpdir => false
  | _ => b

/-- Temporary-directory existence after a trace, starting from `b`. -/
def tmpdirAfter (b : Bool) (t : List Event) : Bool :=
  t.foldl tmpdirStep b

/-- Per-path file view: `some (pos, size)` once the file exists; creation
starts it empty, a seek moves the position (sparsely past the end if
needed), a write of `n` bytes advances the position and extends the size. -/
def fileStep (path : NodePath) (st : Option (Nat × Nat)) :
    Event → Option (Nat × Nat)
  | Event.createFile q => if q = path then some (0, 0) else st
  | Event.seekFile q pos =>
      if q = path then
        match st with
        | some (_, size) => some (pos, size)
        | none => none
      else st
  | Event.writeFile q n =>
      if q = path then
        match st with
        | some (pos, size) => some (pos + n, max size (pos + n))
        | none => none
      else st
  | _ => st

/-- The `(position, size)` of the file at `path` after a trace. -/
def fileStateAfter (path : NodePath) (t : List Event) : Option (Nat × Nat) :=
  t.foldl (fileStep path) none

/-- The size in bytes of the file at `path` after a trace. -/
def fileSizeAfter (t : List Event) (path : NodePath) : Option Nat :=
  (fileStateAfter path t).map (fun st => st.2)

/-- `true` exactly on the `loopDetach id` event. -/
def isDetachOf (id : Nat) : Event → Bool
  | Event.loopDetach j => j == id
  | _ => false

/-- How many times the trace detaches loop device `id`. -/
def detachCount (id : Nat) (t : List Event) : Nat :=
  t.countP (isDetachOf id)

/-! ### The successful run -/

/-- The event block of one device index on the all-success plan. -/
def blockEvents (dir : String) (i : Nat) : List Event :=
  [Event.createFile (NodePath.store dir i),
   Event.seekFile (NodePath.store dir i) IEC.Gi,
   Event.writeFile (NodePath.store dir i) 1,
   Event.flushFile (NodePath.store dir i),
   Event.openFile (NodePath.store dir i),
   Event.loopNextFree i,
   Event.loopAttach i (NodePath.store dir i) 0,
   Event.loopWipe i 0 IEC.Mi]

/-- The provisioning trace of `n` device indices starting at `i`: the blocks
in ascending index order, each block complete -- in particular each wipe --
before the next block starts. -/
def expectedTrace (dir : String) : Nat → Nat → List Event
  | _, 0 => []
  | i, n + 1 => blockEvents dir i ++ expectedTrace dir (i + 1) n

/-- The loop-device ids `i, i+1, ..., i+n-1` in creation order. -/
def devIds : Nat → Nat → List Nat
  | _, 0 => []
  | i, n + 1 => i :: devIds (i + 1) n

/-- The loop binding of one device, `true` while attached.
`LoopDevice::detach` issues `LOOP_CLR_FD`, which the kernel refuses on a
device that is not attached, so the loopdev call returns an error there. -/
def ld_detach (attached : Bool) : Except Unit Bool :=
  if attached then Except.ok false else Except.error ()

/-- `LoopTestDev::detach` is `self.ld.detach().unwrap()`: `none` models the
panic of the unwrap when the OS detach fails. -/
def ltd_detach (attached : Bool) : Option Bool :=
  match ld_detach attached with
  | Except.ok s => some s
  | Except.error _ => none

/-- The plan on which exactly the wipes fail. -/
def wipeFail : FaultPlan := { allOk with wipeOk := fun _ => false }

/-! ## Generic bridges between bitwise operations and arithmetic -/

/-- A contiguous bit window: masking `x` with `(2 ^ w - 1) <<< s` (the mask
whose bits `s .. s+w-1` are set) extracts the field `x / 2 ^ s % 2 ^ w`,
left-aligned at bit `s`. -/
theorem and_window (x w s : Nat) :
    x &&& ((2 ^ w - 1) <<< s) = x / 2 ^ s % 2 ^ w * 2 ^ s := by
  rw [show x / 2 ^ s % 2 ^ w * 2 ^ s = ((x >>> s) % 2 ^ w) <<< s by
    rw [Nat.shiftLeft_eq, Nat.shiftRight_eq_div_pow]]
  apply Nat.eq_of_testBit_eq
  intro i
  simp only [Nat.testBit_and, Nat.testBit_shiftLeft, Nat.testBit_two_pow_sub_one,
    Nat.testBit_mod_two_pow, Nat.testBit_shiftRight]
  by_cases hs : s ≤ i
  · have hi : s + (i - s) = i := by omega
    rw [hi]
    cases hx : x.testBit i <;> simp [hs]
  · simp [hs]

/-- Multiplication by a power of two distributes over bitwise or. -/
theorem pow_mul_or_distrib (k x y : Nat) :
    2 ^ k * x ||| 2 ^ k * y = 2 ^ k * (x ||| y) := by
  apply Nat.eq_of_testBit_eq
  intro i
  rw [Nat.mul_comm (2 ^ k) x, Nat.mul_comm (2 ^ k) y, Nat.mul_comm (2 ^ k) (x ||| y),
    ← Nat.shiftLeft_eq, ← Nat.shiftLeft_eq, ← Nat.shiftLeft_eq]
  simp only [Nat.testBit_or, Nat.testBit_shiftLeft]
  by_cases h : k ≤ i <;> simp [h]

/-- Bitwise or of a low field (below `2 ^ w`) and a multiple of `2 ^ w`
is plain addition. -/
theorem or_low (w a b : Nat) (hb : b < 2 ^ w) :
    b ||| 2 ^ w * a = 2 ^ w * a + b := by
  rw [Nat.lor_comm]
  exact (Nat.mul_add_lt_is_or hb a).symm

/-! ### Arithmetic characterisations of the packings -/

theorem Libc.major_arith (v : Nat) :
    Libc.major v = 2 ^ 12 * (v / 2 ^ 44 % 2 ^ 20) + v / 2 ^ 8 % 2 ^ 12 := by
  rw [Libc.major,
    show (0x00000000000fff00 : Nat) = (2 ^ 12 - 1) <<< 8 from rfl,
    show (0xfffff00000000000 : Nat) = (2 ^ 20 - 1) <<< 44 from rfl,
    and_window, and_window, Nat.shiftRight_eq_div_pow, Nat.shiftRight_eq_div_pow,
    Nat.mul_div_cancel _ (show 0 < 2 ^ 8 by norm_num),
    show (2 ^ 44 : Nat) = 2 ^ 12 * 2 ^ 32 from by norm_num, ← Nat.mul_assoc,
    Nat.mul_div_cancel _ (show 0 < 2 ^ 32 by norm_num)]
  rw [show v / (2 ^ 12 * 2 ^ 32) % 2 ^ 20 * 2 ^ 12
      = 2 ^ 12 * (v / 2 ^ 44 % 2 ^ 20) from by ring_nf]
  exact or_low 12 _ _ (Nat.mod_lt _ (by norm_num))

theorem Libc.minor_arith (v : Nat) :
    Libc.minor v = 2 ^ 8 * (v / 2 ^ 20 % 2 ^ 24) + v % 2 ^ 8 := by
  rw [Libc.minor,
    show (0x00000000000000ff : Nat) = 2 ^ 8 - 1 from rfl,
    show (0x00000ffffff00000 : Nat) = (2 ^ 24 - 1) <<< 20 from rfl,
    Nat.and_pow_two_sub_one_eq_mod, and_window, Nat.shiftRight_eq_div_pow,
    show (2 ^ 20 : Nat) = 2 ^ 8 * 2 ^ 12 from by norm_num, ← Nat.mul_assoc,
    Nat.mul_div_cancel _ (show 0 < 2 ^ 12 by norm_num)]
  rw [show v / (2 ^ 8 * 2 ^ 12) % 2 ^ 24 * 2 ^ 8
      = 2 ^ 8 * (v / 2 ^ 20 % 2 ^ 24) from by ring_nf]
  exact or_low 8 _ _ (Nat.mod_lt _ (by norm_num))

theorem Libc.makedev_arith (ma mi : Nat) :
    Libc.makedev ma mi =
      2 ^ 8 * (2 ^ 12 * (2 ^ 24 * (ma / 2 ^ 12 % 2 ^ 20) + mi / 2 ^ 8 % 2 ^ 24)
        + ma % 2 ^ 12) + mi % 2 ^ 8 := by
  rw [Libc.makedev,
    show (0xfff : Nat) = 2 ^ 12 - 1 from rfl,
    show (0xfffff000 : Nat) = (2 ^ 20 - 1) <<< 12 from rfl,
    show (0xff : Nat) = 2 ^ 8 - 1 from rfl,
    show (0xffffff00 : Nat) = (2 ^ 24 - 1) <<< 8 from rfl,
    Nat.and_pow_two_sub_one_eq_mod, Nat.and_pow_two_sub_one_eq_mod,
    and_window, and_window, Nat.shiftLeft_eq, Nat.shiftLeft_eq, Nat.shiftLeft_eq]
  -- name the three fields
  set A := ma % 2 ^ 12 with hA
  set B := ma / 2 ^ 12 % 2 ^ 20 with hB
  set C := mi % 2 ^ 8 with hC
  set D := mi / 2 ^ 8 % 2 ^ 24 with hD
  -- reassociate into the order low-to-high and collapse the ors to sums
  rw [show A * 2 ^ 8 ||| B * 2 ^ 12 * 2 ^ 32 ||| C ||| D * 2 ^ 8 * 2 ^ 12
      = C ||| ((A * 2 ^ 8 ||| B * 2 ^ 12 * 2 ^ 32) ||| D * 2 ^ 8 * 2 ^ 12) from by
    rw [Nat.lor_comm _ C, Nat.lor_assoc]]
  rw [show A * 2 ^ 8 = 2 ^ 8 * A from by ring,
    show B * 2 ^ 12 * 2 ^ 32 = 2 ^ 8 * (2 ^ 12 * (2 ^ 24 * B)) from by ring,
    show D * 2 ^ 8 * 2 ^ 12 = 2 ^ 8 * (2 ^ 12 * D) from by ring,
    pow_mul_or_distrib, pow_mul_or_distrib]
  rw [Nat.lor_assoc, pow_mul_or_distrib 12, Nat.lor_comm (2 ^ 24 * B) D,
    or_low 24 B D (hD ▸ Nat.mod_lt _ (by norm_num)),
    or_low 12 _ A (hA ▸ Nat.mod_lt _ (by norm_num)),
    or_low 8 _ C (hC ▸ Nat.mod_lt _ (by norm_num))]

/-! ### Claims C1 to C4 -/

/-- C1: for every 64-bit unsigned value `v`, decoding `v` into a `Device`
with the composite decoding and re-encoding with the composite encoding
yields `v` again: `to_composite (from_composite v) = v`. -/
theorem claim_C1_composite_roundtrip (v : Nat) (hv : v < 2 ^ 64) :
    Device.to_dev_t (Device.from_dev_t v) = v := by
  show Libc.makedev (Libc.major v) (Libc.minor v) = v
  rw [Libc.makedev_arith, Libc.major_arith, Libc.minor_arith]
  omega

/-- Witness for C1 at the concrete composite value of the test in the crate itself. -/
theorem claim_C1_composite_roundtrip_witness :
    (0xabcdef1234567890 : Nat) < 2 ^ 64 ∧
      Device.to_dev_t (Device.from_dev_t 0xabcdef1234567890) = 0xabcdef1234567890 :=
  ⟨by norm_num, claim_C1_composite_roundtrip 0xabcdef1234567890 (by norm_num)⟩

theorem Device.from_kdev_t_arith (v : Nat) :
    Device.from_kdev_t v =
      { major := v / 2 ^ 8 % 2 ^ 12
        minor := 2 ^ 8 * (v / 2 ^ 20 % 2 ^ 12) + v % 2 ^ 8 } := by
  rw [Device.from_kdev_t,
    show (0xfff00 : Nat) = (2 ^ 12 - 1) <<< 8 from rfl,
    show (0xff : Nat) = 2 ^ 8 - 1 from rfl,
    and_window, and_window, Nat.and_pow_two_sub_one_eq_mod,
    Nat.shiftRight_eq_div_pow, Nat.shiftRight_eq_div_pow,
    Nat.mul_div_cancel _ (show 0 < 2 ^ 8 by norm_num)]
  rw [show v / 2 ^ 12 / 2 ^ 8 % 2 ^ 12 * 2 ^ 8 = 2 ^ 8 * (v / 2 ^ 20 % 2 ^ 12) from by
    rw [Nat.div_div_eq_div_mul, show (2 ^ 12 * 2 ^ 8 : Nat) = 2 ^ 20 from by norm_num]
    ring]
  rw [or_low 8 _ _ (Nat.mod_lt _ (by norm_num))]

theorem Device.to_kdev_t_arith (ma mi : Nat) (hma : ma ≤ 0xfff) (hmi : mi ≤ 0xfffff) :
    Device.to_kdev_t { major := ma, minor := mi } =
      some (2 ^ 8 * (2 ^ 12 * (mi / 2 ^ 8 % 2 ^ 24) + ma) + mi % 2 ^ 8) := by
  rw [Device.to_kdev_t, if_neg (by simp only [not_or, not_lt]; exact ⟨hma, hmi⟩)]
  simp only
  rw [show (0xff : Nat) = 2 ^ 8 - 1 from rfl,
    show (0xffffff00 : Nat) = (2 ^ 24 - 1) <<< 8 from rfl,
    Nat.and_pow_two_sub_one_eq_mod, and_window, Nat.shiftLeft_eq, Nat.shiftLeft_eq]
  rw [show ma * 2 ^ 8 = 2 ^ 8 * ma from by ring,
    show mi / 2 ^ 8 % 2 ^ 24 * 2 ^ 8 * 2 ^ 12 = 2 ^ 8 * (2 ^ 12 * (mi / 2 ^ 8 % 2 ^ 24)) from by
      ring]
  rw [Nat.lor_assoc, pow_mul_or_distrib 8,
    or_low 12 _ ma (by omega),
    or_low 8 _ _ (Nat.mod_lt _ (by norm_num))]

/-- C2: for every 32-bit unsigned value `v`, decoding `v` with the legacy
kdev_t decoding and re-encoding with the legacy encoding succeeds and yields
`v`: `to_kdev_t (from_kdev_t v) = some v`. -/
theorem claim_C2_legacy_roundtrip (v : Nat) (hv : v < 2 ^ 32) :
    Device.to_kdev_t (Device.from_kdev_t v) = some v := by
  rw [Device.from_kdev_t_arith,
    Device.to_kdev_t_arith _ _ (by omega) (by omega)]
  congr 1
  omega

/-- Witness for C2 at the concrete legacy value of the test in the crate itself. -/
theorem claim_C2_legacy_roundtrip_witness :
    (0x12345678 : Nat) < 2 ^ 32 ∧
      Device.to_kdev_t (Device.from_kdev_t 0x12345678) = some 0x12345678 :=
  ⟨by norm_num, claim_C2_legacy_roundtrip 0x12345678 (by norm_num)⟩

/-- C3: `to_kdev_t` returns `none` exactly when `major > 0xfff` or
`minor > 0xfffff`; for every in-bounds `Device` it returns `some` packed
value that fits in 32 bits.  The embedded function is total, so no code
path raises a fault. -/
theorem claim_C3_legacy_boundary (d : Device) :
    (Device.to_kdev_t d = none ↔ (0xfff < d.major ∨ 0xfffff < d.minor)) ∧
      (∀ x, Device.to_kdev_t d = some x → x < 2 ^ 32) := by
  constructor
  · constructor
    · intro hnone
      by_contra hb
      rw [Device.to_kdev_t, if_neg hb] at hnone
      exact Option.some_ne_none _ hnone
    · intro hb
      rw [Device.to_kdev_t, if_pos hb]
  · intro x hx
    by_cases hb : 0xfff < d.major ∨ 0xfffff < d.minor
    · rw [Device.to_kdev_t, if_pos hb] at hx
      exact absurd hx (Option.noConfusion)
    · push_neg at hb
      obtain ⟨ma, mi⟩ := d
      rw [Device.to_kdev_t_arith _ _ hb.1 hb.2] at hx
      obtain rfl : _ = x := Option.some_injective _ hx
      have h1 : mi / 2 ^ 8 % 2 ^ 24 < 2 ^ 24 := Nat.mod_lt _ (by norm_num)
      have h2 : mi % 2 ^ 8 < 2 ^ 8 := Nat.mod_lt _ (by norm_num)
      have hma := hb.1
      omega

/-- Witness for C3: a device with major `0x1000` is not legacy-encodable,
and an in-bounds device packs below `2 ^ 32`. -/
theorem claim_C3_legacy_boundary_witness :
    Device.to_kdev_t { major := 0x1000, minor := 0 } = none ∧
      ∀ x, Device.to_kdev_t { major := 2, minor := 5 } = some x → x < 2 ^ 32 :=
  ⟨(claim_C3_legacy_boundary { major := 0x1000, minor := 0 }).1.mpr (by norm_num),
    (claim_C3_legacy_boundary { major := 2, minor := 5 }).2⟩

/-- C4: `from_kdev_t` extracts the major from bits 8 to 19 of `v` and the
minor from bits 0 to 7 of `v` together with bits 20 to 31 of `v` moved down
to positions 8 to 19. -/
theorem claim_C4_legacy_decode (v : Nat) (_hv : v < 2 ^ 32) :
    Device.from_kdev_t v =
      { major := v / 2 ^ 8 % 2 ^ 12
        minor := v % 2 ^ 8 + (v / 2 ^ 20 % 2 ^ 12) * 2 ^ 8 } := by
  rw [Device.from_kdev_t_arith]
  congr 1
  ring

/-- Witness for C4: the concrete scenario `from_kdev_t 0x12345678` yields
major `0x456` and minor `0x12378`. -/
theorem claim_C4_legacy_decode_witness :
    Device.from_kdev_t 0x12345678 = { major := 0x456, minor := 0x12378 } := by
  rw [claim_C4_legacy_decode 0x12345678 (by norm_num)]
  rfl

/-- C5: for every path whose metadata can be read, `devnode_to_devno`
returns the raw device number exactly when the file-type bits indicate a
block device, and an absent value -- not a fault -- for every other file
type. -/
theorem claim_C5_devno_block_only (fs : String → Option Metadata)
    (path : String) (md : Metadata) (h : fs path = some md) :
    (md.st_mode &&& S_IFMT = S_IFBLK →
        devnode_to_devno fs path = Except.ok (some md.st_rdev)) ∧
      (md.st_mode &&& S_IFMT ≠ S_IFBLK →
        devnode_to_devno fs path = Except.ok none) := by
  constructor
  · intro hblk
    rw [devnode_to_devno, h]
    simp [hblk]
  · intro hblk
    rw [devnode_to_devno, h]
    simp [hblk]

/-- Witness for C5: a block-device node yields its device number, and a
regular file (mode `0o100644`) yields an absent value. -/
theorem claim_C5_devno_block_only_witness :
    devnode_to_devno (fun _ => some { st_mode := 0o60644, st_rdev := 42 }) "p"
        = Except.ok (some 42) ∧
      devnode_to_devno (fun _ => some { st_mode := 0o100644, st_rdev := 7 }) "q"
        = Except.ok none :=
  ⟨(claim_C5_devno_block_only _ "p" { st_mode := 0o60644, st_rdev := 42 } rfl).1
      (by decide),
    (claim_C5_devno_block_only _ "q" { st_mode := 0o100644, st_rdev := 7 } rfl).2
      (by decide)⟩

/-- C6 (failing input): with sector size 512, `wipe_sectors` at
`offset = Sectors(1)`, `length = Sectors(1)` on an all-ones file zeroes
bytes 1 to 512 -- byte 1 becomes 0 while byte 600 keeps its old value --
whereas the claimed seek to `offset * sector_size` would zero bytes 512 to
1023, leaving byte 1 untouched and zeroing byte 600. -/
theorem claim_C6_wipe_seek_divergence :
    (wipe_sectors wsAllOk 512 1 1 (fun _ => 1)).1 1 = 0 ∧
      (wipe_sectors wsAllOk 512 1 1 (fun _ => 1)).1 600 = 1 ∧
      (wipe_sectors wsAllOk 512 1 1 (fun _ => 1)).2 = true ∧
      (write_sectors_spec wsAllOk 512 1 1 (fun _ => 0) (fun _ => 1)).1 600 = 0 ∧
      (write_sectors_spec wsAllOk 512 1 1 (fun _ => 0) (fun _ => 1)).1 1 = 1 := by
  decide

theorem devIds_length : ∀ n i, (devIds i n).length = n
  | 0, _ => rfl
  | n + 1, i => by simp [devIds, devIds_length n (i + 1)]

theorem allOk_tmpdirOk : allOk.tmpdirOk = true := rfl
theorem allOk_lcOpenOk : allOk.lcOpenOk = true := rfl
theorem allOk_createOk (i : Nat) : allOk.createOk i = true := rfl
theorem allOk_seekOk (i : Nat) : allOk.seekOk i = true := rfl
theorem allOk_writeOk (i : Nat) : allOk.writeOk i = true := rfl
theorem allOk_flushOk (i : Nat) : allOk.flushOk i = true := rfl
theorem allOk_wipeOk (i : Nat) : allOk.wipeOk i = true := rfl
theorem allOk_bodyOk : allOk.bodyOk = true := rfl

theorem LoopTestDev_new_allOk (i : Nat) (path : NodePath) :
    LoopTestDev.new allOk i path
      = ([Event.openFile path, Event.loopNextFree i,
          Event.loopAttach i path 0, Event.loopWipe i 0 IEC.Mi], some i) := rfl

/-- On the all-success plan the provisioning loop emits exactly the expected
trace and returns the ids in creation order. -/
theorem get_devices_loop_allOk (dir : String) :
    ∀ n i devs, get_devices_loop allOk dir n i devs
      = (expectedTrace dir i n, some (devs ++ devIds i n)) := by
  intro n
  induction n with
  | zero => intro i devs; simp [get_devices_loop, expectedTrace, devIds]
  | succ n ih =>
      intro i devs
      simp only [get_devices_loop, LoopTestDev_new_allOk, allOk_createOk,
        allOk_seekOk, allOk_writeOk, allOk_flushOk, if_true,
        ih (i + 1) (devs ++ [i])]
      simp [expectedTrace, blockEvents, devIds]

theorem get_devices_allOk (dir : String) (count : Fin 256) :
    get_devices allOk dir count
      = (expectedTrace dir 0 count.val, some (devIds 0 count.val)) := by
  rw [get_devices, if_pos allOk_lcOpenOk, get_devices_loop_allOk]
  simp

/-- The full all-success run of `test_with_spec`. -/
theorem test_with_spec_allOk (dir : String) (count : Fin 256) :
    test_with_spec allOk dir count
      = Event.createTmpdir :: (expectedTrace dir 0 count.val
          ++ [Event.runBody ((devIds 0 count.val).map loopPath)]
          ++ dropDevs (devIds 0 count.val) ++ [Event.removeTmpdir]) := by
  rw [test_with_spec, if_pos allOk_tmpdirOk, get_devices_allOk]
  simp only [allOk_bodyOk, if_true]

theorem attachedAfter_append (s : List Nat) (t1 t2 : List Event) :
    attachedAfter s (t1 ++ t2) = attachedAfter (attachedAfter s t1) t2 :=
  List.foldl_append _ _ _ _

/-- Dropping the guard vector releases exactly the bindings it holds. -/
theorem foldl_applyEvent_dropDevs (devs : List Nat) :
    List.foldl applyEvent devs (dropDevs devs) = [] := by
  induction devs with
  | nil => rfl
  | cons d ds ih =>
      simp only [dropDevs, List.map_cons, List.foldl_cons,
        applyEvent, List.erase_cons_head]
      exact ih

/-- Dropping the guard vector releases exactly the bindings it holds. -/
theorem attachedAfter_dropDevs (devs : List Nat) :
    attachedAfter devs (dropDevs devs) = [] :=
  foldl_applyEvent_dropDevs devs

/-- Under a plan whose wipes all succeed, the provisioning loop never leaks:
it ends with exactly the returned bindings attached on success and with no
bindings attached on a panic. -/
theorem get_devices_loop_attached (p : FaultPlan) (dir : String)
    (hw : ∀ j, p.wipeOk j = true) :
    ∀ n i devs,
      attachedAfter devs (get_devices_loop p dir n i devs).1
        = (get_devices_loop p dir n i devs).2.getD [] := by
  intro n
  induction n with
  | zero => intro i devs; simp [get_devices_loop, attachedAfter]
  | succ n ih =>
      intro i devs
      simp only [get_devices_loop]
      by_cases h1 : p.createOk i
      case neg =>
        simp [h1, attachedAfter_dropDevs devs]
      rw [if_pos h1]
      by_cases h2 : p.seekOk i
      case neg =>
        simp [h2, attachedAfter, applyEvent, foldl_applyEvent_dropDevs devs]
      rw [if_pos h2]
      by_cases h3 : p.writeOk i
      case neg =>
        simp [h3, attachedAfter, applyEvent, foldl_applyEvent_dropDevs devs]
      rw [if_pos h3]
      by_cases h4 : p.flushOk i
      case neg =>
        simp [h4, attachedAfter, applyEvent, foldl_applyEvent_dropDevs devs]
      rw [if_pos h4]
      rw [LoopTestDev.new]
      by_cases h5 : p.openOk i
      case neg =>
        simp [h5, attachedAfter, applyEvent, foldl_applyEvent_dropDevs devs]
      rw [if_pos h5]
      by_cases h6 : p.nextFreeOk i
      case neg =>
        simp [h6, attachedAfter, applyEvent, foldl_applyEvent_dropDevs devs]
      rw [if_pos h6]
      by_cases h7 : p.attachOk i
      case neg =>
        simp [h7, attachedAfter, applyEvent, foldl_applyEvent_dropDevs devs]
      rw [if_pos h7, if_pos (hw i)]
      have ihx := ih (i + 1) (devs ++ [i])
      simp only [attachedAfter, List.foldl_cons, List.foldl_append,
        applyEvent] at ihx ⊢
      exact ihx

/-- On success the loop has appended one id per remaining index. -/
theorem get_devices_loop_some_length (p : FaultPlan) (dir : String) :
    ∀ n i devs t ds, get_devices_loop p dir n i devs = (t, some ds) →
      ds.length = devs.length + n := by
  intro n
  induction n with
  | zero =>
      intro i devs t ds h
      rw [get_devices_loop] at h
      obtain ⟨-, h2⟩ := Prod.mk.injEq .. ▸ h
      simp [← Option.some_injective _ h2]
  | succ n ih =>
      intro i devs t ds h
      simp only [get_devices_loop] at h
      by_cases h1 : p.createOk i
      case neg => simp [h1] at h
      rw [if_pos h1] at h
      by_cases h2 : p.seekOk i
      case neg => simp [h2] at h
      rw [if_pos h2] at h
      by_cases h3 : p.writeOk i
      case neg => simp [h3] at h
      rw [if_pos h3] at h
      by_cases h4 : p.flushOk i
      case neg => simp [h4] at h
      rw [if_pos h4] at h
      rcases hnew : LoopTestDev.new p i (NodePath.store dir i) with ⟨tn, rn⟩
      rw [hnew] at h
      cases rn with
      | none => simp at h
      | some id =>
          simp only at h
          obtain ⟨-, hsnd⟩ := Prod.mk.injEq .. ▸ h
          have := ih (i + 1) (devs ++ [id])
            (get_devices_loop p dir n (i + 1) (devs ++ [id])).1 ds
            (by rw [← hsnd])
          simp only [List.length_append, List.length_cons, List.length_nil] at this
          omega

/-! ### File sizes over the successful trace -/

theorem fileStep_block_ne (dir : String) (i j : Nat) (hij : j ≠ i)
    (st : Option (Nat × Nat)) :
    List.foldl (fileStep (NodePath.store dir i)) st (blockEvents dir j) = st := by
  simp [blockEvents, fileStep, hij]

theorem fileStep_block_eq (dir : String) (i : Nat) (st : Option (Nat × Nat)) :
    List.foldl (fileStep (NodePath.store dir i)) st (blockEvents dir i)
      = some (IEC.Gi + 1, IEC.Gi + 1) := by
  simp [blockEvents, fileStep]

theorem fileStep_expected_high (dir : String) (i : Nat) :
    ∀ n s, i < s → ∀ st,
      List.foldl (fileStep (NodePath.store dir i)) st (expectedTrace dir s n) = st := by
  intro n
  induction n with
  | zero => intro s _ st; rfl
  | succ n ih =>
      intro s hs st
      simp only [expectedTrace, List.foldl_append]
      rw [fileStep_block_ne dir i s (by omega)]
      exact ih (s + 1) (by omega) st

/-- Every index in range ends the successful provisioning trace with its
backing file grown to `IEC.Gi + 1` bytes (seek to `IEC.Gi`, then one byte). -/
theorem fileStep_expected_in_range (dir : String) :
    ∀ n s i st, s ≤ i → i < s + n →
      List.foldl (fileStep (NodePath.store dir i)) st (expectedTrace dir s n)
        = some (IEC.Gi + 1, IEC.Gi + 1) := by
  intro n
  induction n with
  | zero => intro s i st h1 h2; omega
  | succ n ih =>
      intro s i st h1 h2
      simp only [expectedTrace, List.foldl_append]
      by_cases his : i = s
      · subst his
        rw [fileStep_block_eq]
        exact fileStep_expected_high dir i n (i + 1) (by omega) _
      · rw [fileStep_block_ne dir i s (by omega)]
        exact ih (s + 1) i st (by omega) (by omega)

/-! ### Detach counting over the successful trace -/

theorem countP_isDetachOf_block (dir : String) (j id : Nat) :
    List.countP (isDetachOf id) (blockEvents dir j) = 0 := by
  simp [blockEvents, isDetachOf, List.countP_cons, List.countP_nil]

theorem countP_isDetachOf_expected (dir : String) (id : Nat) :
    ∀ n s, List.countP (isDetachOf id) (expectedTrace dir s n) = 0 := by
  intro n
  induction n with
  | zero => intro s; rfl
  | succ n ih =>
      intro s
      simp only [expectedTrace, List.countP_append, countP_isDetachOf_block, ih (s + 1)]

theorem countP_isDetachOf_dropDevs (id : Nat) (devs : List Nat) :
    List.countP (isDetachOf id) (dropDevs devs)
      = List.countP (fun j => j == id) devs := by
  induction devs with
  | nil => rfl
  | cons d ds ih =>
      simp only [dropDevs, List.map_cons, List.countP_cons, isDetachOf] at ih ⊢
      rw [ih]

theorem countP_devIds (id : Nat) :
    ∀ n s, List.countP (fun j => j == id) (devIds s n)
      = if s ≤ id ∧ id < s + n then 1 else 0 := by
  intro n
  induction n with
  | zero =>
      intro s
      rw [if_neg (by omega)]
      rfl
  | succ n ih =>
      intro s
      simp only [devIds, List.countP_cons, ih (s + 1), beq_iff_eq]
      split_ifs <;> omega

/-! ### Claims C7 to C10 -/

/-- C7 (counterexample to the claimed fixed size of 1 GiB): already for a
single provisioned device the backing file `store0` ends at
`2 ^ 30 + 1` bytes -- the code seeks to `IEC::Gi` and then writes one byte
past it -- which is not 1 GiB. -/
theorem claim_C7_counterexample :
    fileSizeAfter (get_devices allOk "d" 1).1 (NodePath.store "d" 0)
        = some (2 ^ 30 + 1) ∧ (2 ^ 30 + 1 : Nat) ≠ 2 ^ 30 := by
  decide

/-- C7 (amended): on the all-success plan, provisioning emits, for each
index in ascending order, exactly the block create `store<i>`, seek to
`IEC::Gi`, write one byte, flush, open, claim free device, attach at offset
0, wipe the leading MiB -- each block, wipe included, complete before the
file of the next index is created -- and returns the devices in creation order;
each backing file ends at `IEC::Gi + 1` bytes (one byte past 1 GiB, the
amendment). -/
theorem claim_C7_provisioning_amended (dir : String) (count : Fin 256) :
    get_devices allOk dir count
        = (expectedTrace dir 0 count.val, some (devIds 0 count.val)) ∧
      ∀ i, i < count.val →
        fileSizeAfter (get_devices allOk dir count).1 (NodePath.store dir i)
          = some (IEC.Gi + 1) := by
  refine ⟨get_devices_allOk dir count, ?_⟩
  intro i hi
  rw [get_devices_allOk]
  show (List.foldl (fileStep (NodePath.store dir i)) none
    (expectedTrace dir 0 count.val)).map (fun st => st.2) = some (IEC.Gi + 1)
  rw [fileStep_expected_in_range dir count.val 0 i none (by omega) (by omega)]
  rfl

/-- Witness for C7 (amended) at one device: `store0` ends at `IEC.Gi + 1`
bytes. -/
theorem claim_C7_provisioning_amended_witness :
    fileSizeAfter (get_devices allOk "d" 1).1 (NodePath.store "d" 0)
      = some (IEC.Gi + 1) :=
  (claim_C7_provisioning_amended "d" 1).2 0 (by decide)

/-- C8 (counterexample): detaching an attached device succeeds, but
invoking detach on an already-detached device is not a no-op: the failing
OS detach is unwrapped and panics (`none`). -/
theorem claim_C8_counterexample :
    ltd_detach true = some false ∧ ltd_detach false = none := by
  decide

/-- C8 (amended): in a scoped harness run each provisioned device is
unbound exactly once (by the `Drop` at scope end) and ids never provisioned
are never detached; `detach` on an attached device succeeds, but a second
detach of the same device panics via the unwrap instead of being a no-op,
so a double detach is neither harmless nor prevented -- it is merely never
reached on runs that do not call `detach` explicitly. -/
theorem claim_C8_detach_amended (dir : String) (count : Fin 256) (id : Nat) :
    detachCount id (test_with_spec allOk dir count)
        = (if id < count.val then 1 else 0) ∧
      ltd_detach true = some false ∧ ltd_detach false = none := by
  refine ⟨?_, rfl, rfl⟩
  rw [test_with_spec_allOk, detachCount]
  simp [List.countP_cons, List.countP_append,
    countP_isDetachOf_expected dir id count.val 0,
    countP_isDetachOf_dropDevs, countP_devIds id count.val 0, isDetachOf,
    List.countP_nil]

/-- C9 (counterexample): if the wipe of the very first device fails after
its loop device was attached, the run ends with that binding still attached
-- the `LoopTestDev` guard does not exist yet, so unwinding releases
nothing. -/
theorem claim_C9_counterexample :
    attachedAfter [] (test_with_spec wipeFail "d" 1) = [0] ∧
      attachedAfter [] (test_with_spec wipeFail "d" 1) ≠ [] := by
  decide

theorem tmpdirAfter_ends_remove (b : Bool) (x : List Event) :
    tmpdirAfter b (x ++ [Event.removeTmpdir]) = false := by
  simp [tmpdirAfter, List.foldl_append, tmpdirStep]

/-- C9 (amended): provided no wipe fails (the wipe is the only fallible
step between an attach and the construction of its guard), `test_with_spec`
ends every run -- body succeeding or panicking, any other provisioning step
failing anywhere -- with zero loop bindings and without the temporary
directory. -/
theorem claim_C9_teardown_amended (p : FaultPlan) (dir : String)
    (count : Fin 256) (hw : ∀ j, p.wipeOk j = true) :
    attachedAfter [] (test_with_spec p dir count) = [] ∧
      tmpdirAfter false (test_with_spec p dir count) = false := by
  constructor
  · rw [test_with_spec]
    by_cases ht : p.tmpdirOk
    case neg => simp [ht, attachedAfter]
    rw [if_pos ht]
    rcases hgd : get_devices p dir count with ⟨t, r⟩
    have hat : List.foldl applyEvent [] t = r.getD [] := by
      rw [get_devices] at hgd
      by_cases hlc : p.lcOpenOk
      · rw [if_pos hlc] at hgd
        have h2 := get_devices_loop_attached p dir hw count.val 0 []
        rw [hgd] at h2
        exact h2
      · rw [if_neg hlc] at hgd
        obtain ⟨h1, h2⟩ := Prod.mk.injEq .. ▸ hgd
        rw [← h1, ← h2]
        rfl
    cases r with
    | none =>
        simp only [attachedAfter, List.foldl_cons, List.foldl_append, applyEvent]
        rw [hat]
        rfl
    | some devs =>
        simp only [ite_self, attachedAfter, List.foldl_cons, List.foldl_append,
          applyEvent]
        rw [hat]
        show List.foldl applyEvent
          (List.foldl applyEvent devs (dropDevs devs)) [Event.removeTmpdir] = []
        rw [foldl_applyEvent_dropDevs]
        rfl
  · rw [test_with_spec]
    by_cases ht : p.tmpdirOk
    case neg => simp [ht, tmpdirAfter]
    rw [if_pos ht]
    rcases get_devices p dir count with ⟨t, r⟩
    cases r with
    | none =>
        show tmpdirAfter false (Event.createTmpdir :: (t ++ [Event.removeTmpdir])) = false
        rw [tmpdirAfter, List.foldl_cons]
        exact tmpdirAfter_ends_remove _ t
    | some devs =>
        simp only [ite_self]
        rw [tmpdirAfter, List.foldl_cons]
        exact tmpdirAfter_ends_remove _ _

/-- Witness for C9 (amended) on the all-success plan with two devices. -/
theorem claim_C9_teardown_amended_witness :
    attachedAfter [] (test_with_spec allOk "d" 2) = [] ∧
      tmpdirAfter false (test_with_spec allOk "d" 2) = false :=
  claim_C9_teardown_amended allOk "d" 2 (fun _ => rfl)

/-- C10: the count accepted by `get_devices` and `test_with_spec` is a
`u8`, so a successful provisioning returns exactly `count` devices and
never more than 255; and with `count = 0` the harness creates no backing
file, runs the body on the empty path list, and removes the temporary
directory. -/
theorem claim_C10_count_u8 (p : FaultPlan) (dir : String) (count : Fin 256)
    (t : List Event) (devs : List Nat)
    (h : get_devices p dir count = (t, some devs)) :
    devs.length = count.val ∧ count.val ≤ 255 ∧
      test_with_spec allOk dir 0
        = [Event.createTmpdir, Event.runBody [], Event.removeTmpdir] := by
  refine ⟨?_, by have := count.isLt; omega, ?_⟩
  · rw [get_devices] at h
    by_cases hlc : p.lcOpenOk
    · rw [if_pos hlc] at h
      have hlen := get_devices_loop_some_length p dir count.val 0 [] t devs h
      simpa using hlen
    · rw [if_neg hlc] at h
      obtain ⟨-, h2⟩ := Prod.mk.injEq .. ▸ h
      exact absurd h2 (by simp)
  · rw [test_with_spec_allOk]
    rfl

/-- Witness for C10 with three requested devices on the all-success plan. -/
theorem claim_C10_count_u8_witness :
    [0, 1, 2].length = (3 : Fin 256).val ∧ (3 : Fin 256).val ≤ 255 ∧
      test_with_spec allOk "d" 0
        = [Event.createTmpdir, Event.runBody [], Event.removeTmpdir] :=
  claim_C10_count_u8 allOk "d" 3 (expectedTrace "d" 0 3) [0, 1, 2]
    (by rw [get_devices_allOk]; rfl)

end Devicemapper
